import Mathlib

/-!
Verification of the package-sorting classifier
(`app_src/src/utils/packageSorter.ts`).

The source operates on JavaScript numbers.  We embed them as `JSNum`:
exact rationals extended with the two infinities and `NaN`, with the
comparison and multiplication semantics of IEEE relational operators at
that level (any comparison involving `NaN` is false; infinities compare
and multiply by sign, `0 * ∞ = NaN`).  Thrown `Error`s become
`Except String`, carrying the exact message strings of the source.
-/

namespace PackageSorter

/-- A JavaScript number: a finite value (modelled exactly as a rational),
positive or negative infinity, or `NaN`. -/
inductive JSNum where
  | num (q : ℚ)
  | posInf
  | negInf
  | nan
deriving DecidableEq

/-- JavaScript `a <= b`: false whenever either side is `NaN`. -/
def JSNum.le : JSNum → JSNum → Bool
  | .num a, .num b => decide (a ≤ b)
  | .num _, .posInf => true
  | .num _, .negInf => false
  | .posInf, .num _ => false
  | .posInf, .posInf => true
  | .posInf, .negInf => false
  | .negInf, .num _ => true
  | .negInf, .posInf => true
  | .negInf, .negInf => true
  | .nan, _ => false
  | _, .nan => false

/-- JavaScript `a >= b`. -/
def JSNum.ge (a b : JSNum) : Bool := JSNum.le b a

/-- JavaScript `isFinite`. -/
def JSNum.isFinite : JSNum → Bool
  | .num _ => true
  | _ => false

/-- JavaScript `*` on our numbers: `NaN` is absorbing, infinities follow
the sign of the other factor, and `0 * ±∞ = NaN`. -/
def JSNum.mul : JSNum → JSNum → JSNum
  | .nan, _ => .nan
  | _, .nan => .nan
  | .posInf, .posInf => .posInf
  | .posInf, .negInf => .negInf
  | .negInf, .posInf => .negInf
  | .negInf, .negInf => .posInf
  | .posInf, .num b => if 0 < b then .posInf else if b < 0 then .negInf else .nan
  | .num a, .posInf => if 0 < a then .posInf else if a < 0 then .negInf else .nan
  | .negInf, .num b => if 0 < b then .negInf else if b < 0 then .posInf else .nan
  | .num a, .negInf => if 0 < a then .negInf else if a < 0 then .posInf else .nan
  | .num a, .num b => .num (a * b)

/-- The `PackageType` union of the source: `'STANDARD' | 'SPECIAL' | 'REJECTED'`. -/
inductive PackageType where
  | STANDARD
  | SPECIAL
  | REJECTED
deriving DecidableEq

/-- Message of the error thrown when some input is non-positive. -/
def invalidRangeMsg : String :=
  "Package dimensions and mass must be positive values greater than 0"

/-- Message of the error thrown when some input is non-finite. -/
def notFiniteMsg : String :=
  "Package dimensions and mass must be finite numbers"

/-- `validateInputs` of the source: throws on `width <= 0 || height <= 0 ||
length <= 0 || mass <= 0`, then on `!isFinite(width) || ... || !isFinite(mass)`. -/
def validateInputs (width height length mass : JSNum) : Except String Unit :=
  if width.le (.num 0) || height.le (.num 0) || length.le (.num 0) || mass.le (.num 0) then
    .error invalidRangeMsg
  else if !width.isFinite || !height.isFinite || !length.isFinite || !mass.isFinite then
    .error notFiniteMsg
  else
    .ok ()

/-- `isBulky` of the source: volume at least one million, or some
dimension at least 150. -/
def isBulky (width height length : JSNum) : Bool :=
  let volume := (width.mul height).mul length
  let hasLargeDimension := width.ge (.num 150) || height.ge (.num 150) || length.ge (.num 150)
  volume.ge (.num 1000000) || hasLargeDimension

/-- `isHeavy` of the source: `mass >= 20`. -/
def isHeavy (mass : JSNum) : Bool :=
  mass.ge (.num 20)

/-- `sort` of the source: validate, then map the two predicates to a
`PackageType`. -/
def sort (width height length mass : JSNum) : Except String PackageType :=
  match validateInputs width height length mass with
  | .error e => .error e
  | .ok _ =>
    let bulky := isBulky width height length
    let heavy := isHeavy mass
    if bulky && heavy then .ok .REJECTED
    else if bulky || heavy then .ok .SPECIAL
    else .ok .STANDARD

/-- The `PackageResult` record of the source (`PackageInput` fields inlined). -/
structure PackageResult where
  width : JSNum
  height : JSNum
  length : JSNum
  mass : JSNum
  type : PackageType
  volume : JSNum
  isBulky : Bool
  isHeavy : Bool
  reason : String
deriving DecidableEq

/-- Reason string of the `REJECTED` branch. -/
def reasonRejected : String := "Package is both bulky and heavy"

/-- Reason string when both the volume and a dimension exceed their thresholds. -/
def reasonBulkyBoth : String := "Package is bulky (volume ≥ 1M cm³ and dimension ≥ 150 cm)"

/-- Reason string when only the volume threshold is exceeded. -/
def reasonBulkyVolume : String := "Package is bulky (volume ≥ 1,000,000 cm³)"

/-- Reason string when only a dimension threshold is exceeded. -/
def reasonBulkyDim : String := "Package is bulky (dimension ≥ 150 cm)"

/-- Reason string of the heavy-only branch. -/
def reasonHeavy : String := "Package is heavy (mass ≥ 20 kg)"

/-- Reason string of the `STANDARD` branch. -/
def reasonStandard : String := "Package meets standard criteria"

/-- `sortWithDetails` of the source: validate, compute volume and the two
predicates, call `sort` for the type, pick the reason by the source's
branch structure (with `reason` defaulting to the empty string), and
return the full record. -/
def sortWithDetails (width height length mass : JSNum) : Except String PackageResult :=
  match validateInputs width height length mass with
  | .error e => .error e
  | .ok _ =>
    let volume := (width.mul height).mul length
    let bulky := isBulky width height length
    let heavy := isHeavy mass
    match sort width height length mass with
    | .error e => .error e
    | .ok type =>
      let reason :=
        if type = .REJECTED then
          reasonRejected
        else if type = .SPECIAL then
          if bulky && !heavy then
            let volumeExceeded := volume.ge (.num 1000000)
            let dimensionExceeded :=
              width.ge (.num 150) || height.ge (.num 150) || length.ge (.num 150)
            if volumeExceeded && dimensionExceeded then reasonBulkyBoth
            else if volumeExceeded then reasonBulkyVolume
            else reasonBulkyDim
          else if heavy && !bulky then reasonHeavy
          else ""
        else
          reasonStandard
      .ok {
        width := width
        height := height
        length := length
        mass := mass
        type := type
        volume := volume
        isBulky := bulky
        isHeavy := heavy
        reason := reason
      }

/-! Helper lemmas about validation and classification on valid inputs. -/

lemma validateInputs_pos (w h l m : ℚ) (h1 : 0 < w) (h2 : 0 < h) (h3 : 0 < l) (h4 : 0 < m) :
    validateInputs (.num w) (.num h) (.num l) (.num m) = .ok () := by
  simp [validateInputs, JSNum.le, JSNum.isFinite,
    not_le.mpr h1, not_le.mpr h2, not_le.mpr h3, not_le.mpr h4]

lemma sort_pos (w h l m : ℚ) (h1 : 0 < w) (h2 : 0 < h) (h3 : 0 < l) (h4 : 0 < m) :
    sort (.num w) (.num h) (.num l) (.num m) =
      .ok (if isBulky (.num w) (.num h) (.num l) && isHeavy (.num m) then .REJECTED
        else if isBulky (.num w) (.num h) (.num l) || isHeavy (.num m) then .SPECIAL
        else .STANDARD) := by
  unfold sort
  rw [validateInputs_pos w h l m h1 h2 h3 h4]
  cases hb : isBulky (.num w) (.num h) (.num l) <;>
    cases hv : isHeavy (.num m) <;> simp [hb, hv]

/-! Claims about the classifier. -/

/-- C1: for every valid input (all four values positive, hence finite in the
embedding), `sort` returns `REJECTED` iff both `isBulky` and `isHeavy` hold,
`SPECIAL` iff exactly one holds, and `STANDARD` iff neither holds. -/
theorem C1_classify_iff (w h l m : ℚ) (h1 : 0 < w) (h2 : 0 < h) (h3 : 0 < l) (h4 : 0 < m) :
    (sort (.num w) (.num h) (.num l) (.num m) = .ok .REJECTED ↔
      (isBulky (.num w) (.num h) (.num l) = true ∧ isHeavy (.num m) = true)) ∧
    (sort (.num w) (.num h) (.num l) (.num m) = .ok .SPECIAL ↔
      ((isBulky (.num w) (.num h) (.num l) = true ∧ isHeavy (.num m) = false) ∨
       (isBulky (.num w) (.num h) (.num l) = false ∧ isHeavy (.num m) = true))) ∧
    (sort (.num w) (.num h) (.num l) (.num m) = .ok .STANDARD ↔
      (isBulky (.num w) (.num h) (.num l) = false ∧ isHeavy (.num m) = false)) := by
  rw [sort_pos w h l m h1 h2 h3 h4]
  cases hb : isBulky (.num w) (.num h) (.num l) <;>
    cases hv : isHeavy (.num m) <;> simp

/-- Witness for C1: the package (200, 10, 10, 25) is bulky and heavy and is
classified `REJECTED`. -/
theorem C1_witness :
    sort (.num 200) (.num 10) (.num 10) (.num 25) = .ok .REJECTED :=
  (C1_classify_iff 200 10 10 25 (by norm_num) (by norm_num) (by norm_num)
    (by norm_num)).1.mpr
    ⟨by norm_num [isBulky, JSNum.mul, JSNum.ge, JSNum.le],
     by norm_num [isHeavy, JSNum.ge, JSNum.le]⟩

lemma isBulky_num (w h l : ℚ) :
    isBulky (.num w) (.num h) (.num l) = true ↔
      (1000000 ≤ w * h * l ∨ 150 ≤ w ∨ 150 ≤ h ∨ 150 ≤ l) := by
  simp [isBulky, JSNum.mul, JSNum.ge, JSNum.le, or_assoc]

lemma isHeavy_num (m : ℚ) :
    isHeavy (.num m) = true ↔ 20 ≤ m := by
  simp [isHeavy, JSNum.ge, JSNum.le]

/-- C2: for every triple of finite values, `isBulky` is true iff the volume is
at least 1,000,000 or some dimension is at least 150, both thresholds
inclusive. -/
theorem C2_isBulky_iff (w h l : ℚ) :
    isBulky (.num w) (.num h) (.num l) = true ↔
      (1000000 ≤ w * h * l ∨ 150 ≤ w ∨ 150 ≤ h ∨ 150 ≤ l) :=
  isBulky_num w h l

/-- C5: for every finite mass, `isHeavy` is true iff the mass is at least 20,
threshold inclusive. -/
theorem C5_isHeavy_iff (m : ℚ) :
    isHeavy (.num m) = true ↔ 20 ≤ m :=
  isHeavy_num m

lemma validateInputs_nonpos (w h l m : JSNum)
    (hp : (w.le (.num 0) || h.le (.num 0) || l.le (.num 0) || m.le (.num 0)) = true) :
    validateInputs w h l m = .error invalidRangeMsg := by
  simp [validateInputs, hp]

lemma sort_err (w h l m : JSNum) (e : String)
    (he : validateInputs w h l m = .error e) :
    sort w h l m = .error e := by
  unfold sort
  rw [he]

lemma sortWithDetails_err (w h l m : JSNum) (e : String)
    (he : validateInputs w h l m = .error e) :
    sortWithDetails w h l m = .error e := by
  unfold sortWithDetails
  rw [he]

/-- C3: validation order is observable.  If the positivity check fires on any
of the four inputs, the result is the `InvalidRange` error — for `validateInputs`
and hence for both `sort` and `sortWithDetails`; only when it passes for all
four and some input is non-finite is the `NotFinite` error raised.  In
particular `NaN` and `+∞` inputs yield `NotFinite`, while `-∞` (non-positive
and non-finite at once) yields `InvalidRange`. -/
theorem C3_validation_order :
    (∀ w h l m : JSNum,
      (w.le (.num 0) || h.le (.num 0) || l.le (.num 0) || m.le (.num 0)) = true →
        validateInputs w h l m = .error invalidRangeMsg ∧
        sort w h l m = .error invalidRangeMsg ∧
        sortWithDetails w h l m = .error invalidRangeMsg) ∧
    (∀ w h l m : JSNum,
      (w.le (.num 0) || h.le (.num 0) || l.le (.num 0) || m.le (.num 0)) = false →
      (!w.isFinite || !h.isFinite || !l.isFinite || !m.isFinite) = true →
        validateInputs w h l m = .error notFiniteMsg ∧
        sort w h l m = .error notFiniteMsg ∧
        sortWithDetails w h l m = .error notFiniteMsg) ∧
    validateInputs .nan (.num 1) (.num 1) (.num 1) = .error notFiniteMsg ∧
    validateInputs .posInf (.num 1) (.num 1) (.num 1) = .error notFiniteMsg ∧
    validateInputs .negInf (.num 1) (.num 1) (.num 1) = .error invalidRangeMsg := by
  refine ⟨?_, ?_, ?_, ?_, ?_⟩
  · intro w h l m hp
    have hv := validateInputs_nonpos w h l m hp
    exact ⟨hv, sort_err w h l m _ hv, sortWithDetails_err w h l m _ hv⟩
  · intro w h l m hp hf
    have hv : validateInputs w h l m = .error notFiniteMsg := by
      simp [validateInputs, hp, hf]
    exact ⟨hv, sort_err w h l m _ hv, sortWithDetails_err w h l m _ hv⟩
  · norm_num [validateInputs, JSNum.le, JSNum.isFinite]
  · norm_num [validateInputs, JSNum.le, JSNum.isFinite]
  · norm_num [validateInputs, JSNum.le, JSNum.isFinite]

/-- Witness for C3: on `(-∞, +∞, 1, 1)` — one value non-positive, another
non-finite — `sort` fails with the `InvalidRange` error, not `NotFinite`. -/
theorem C3_witness :
    sort .negInf .posInf (.num 1) (.num 1) = .error invalidRangeMsg :=
  (C3_validation_order.1 .negInf .posInf (.num 1) (.num 1) rfl).2.1

/-- C4: whenever some input satisfies the non-positivity check, both entry
points fail with the `InvalidRange` error and return no partial result (each
validates on its own). -/
theorem C4_nonpositive_rejects (w h l m : JSNum)
    (hp : (w.le (.num 0) || h.le (.num 0) || l.le (.num 0) || m.le (.num 0)) = true) :
    sort w h l m = .error invalidRangeMsg ∧
    sortWithDetails w h l m = .error invalidRangeMsg :=
  ⟨sort_err w h l m _ (validateInputs_nonpos w h l m hp),
   sortWithDetails_err w h l m _ (validateInputs_nonpos w h l m hp)⟩

/-- Witness for C4: width 0 makes both entry points fail with `InvalidRange`. -/
theorem C4_witness :
    sort (.num 0) (.num 10) (.num 10) (.num 5) = .error invalidRangeMsg ∧
    sortWithDetails (.num 0) (.num 10) (.num 10) (.num 5) = .error invalidRangeMsg :=
  C4_nonpositive_rejects (.num 0) (.num 10) (.num 10) (.num 5)
    (by norm_num [JSNum.le])

lemma sortWithDetails_pos (w h l m : ℚ) (h1 : 0 < w) (h2 : 0 < h) (h3 : 0 < l) (h4 : 0 < m) :
    sortWithDetails (.num w) (.num h) (.num l) (.num m) = .ok
      { width := .num w
        height := .num h
        length := .num l
        mass := .num m
        type :=
          if isBulky (.num w) (.num h) (.num l) && isHeavy (.num m) then .REJECTED
          else if isBulky (.num w) (.num h) (.num l) || isHeavy (.num m) then .SPECIAL
          else .STANDARD
        volume := .num (w * h * l)
        isBulky := isBulky (.num w) (.num h) (.num l)
        isHeavy := isHeavy (.num m)
        reason :=
          if isBulky (.num w) (.num h) (.num l) && isHeavy (.num m) then reasonRejected
          else if isBulky (.num w) (.num h) (.num l) then
            if 1000000 ≤ w * h * l then
              if 150 ≤ w ∨ 150 ≤ h ∨ 150 ≤ l then reasonBulkyBoth else reasonBulkyVolume
            else reasonBulkyDim
          else if isHeavy (.num m) then reasonHeavy
          else reasonStandard } := by
  unfold sortWithDetails
  rw [validateInputs_pos w h l m h1 h2 h3 h4, sort_pos w h l m h1 h2 h3 h4]
  cases hb : isBulky (.num w) (.num h) (.num l) <;>
    cases hv : isHeavy (.num m) <;>
      simp [JSNum.mul, JSNum.ge, JSNum.le, or_assoc]
  split_ifs <;> first | rfl | tauto

/-- C6: on every valid input, `sort` succeeds with one of the three
enumeration values, and the `type` field of the record returned by
`sortWithDetails` on the same inputs equals the value `sort` returns. -/
theorem C6_detail_agrees_with_sort (w h l m : ℚ)
    (h1 : 0 < w) (h2 : 0 < h) (h3 : 0 < l) (h4 : 0 < m) :
    (∃ t, sort (.num w) (.num h) (.num l) (.num m) = .ok t ∧
      (t = .STANDARD ∨ t = .SPECIAL ∨ t = .REJECTED)) ∧
    Except.map PackageResult.type (sortWithDetails (.num w) (.num h) (.num l) (.num m)) =
      sort (.num w) (.num h) (.num l) (.num m) := by
  rw [sort_pos w h l m h1 h2 h3 h4, sortWithDetails_pos w h l m h1 h2 h3 h4]
  exact ⟨⟨_, rfl, by split_ifs <;> simp⟩, rfl⟩

/-- Witness for C6: on (10, 10, 10, 5) the detailed record's `type` agrees
with `sort`. -/
theorem C6_witness :
    Except.map PackageResult.type (sortWithDetails (.num 10) (.num 10) (.num 10) (.num 5)) =
      sort (.num 10) (.num 10) (.num 10) (.num 5) :=
  (C6_detail_agrees_with_sort 10 10 10 5 (by norm_num) (by norm_num) (by norm_num)
    (by norm_num)).2

/-- C7: on every valid input the `reason` of the detailed record is selected
by priority: `REJECTED` states both bulky and heavy; else bulky-and-not-heavy
cites volume and dimension when both independently hold, volume alone when
only the volume condition holds, dimension alone otherwise; else
heavy-and-not-bulky cites the mass; else the standard message. -/
theorem C7_reason_priority (w h l m : ℚ)
    (h1 : 0 < w) (h2 : 0 < h) (h3 : 0 < l) (h4 : 0 < m) :
    ∃ r, sortWithDetails (.num w) (.num h) (.num l) (.num m) = .ok r ∧
      (r.type = .REJECTED → r.reason = reasonRejected) ∧
      (isBulky (.num w) (.num h) (.num l) = true → isHeavy (.num m) = false →
        ((1000000 ≤ w * h * l → (150 ≤ w ∨ 150 ≤ h ∨ 150 ≤ l) →
            r.reason = reasonBulkyBoth) ∧
         (1000000 ≤ w * h * l → ¬(150 ≤ w ∨ 150 ≤ h ∨ 150 ≤ l) →
            r.reason = reasonBulkyVolume) ∧
         (¬(1000000 ≤ w * h * l) → r.reason = reasonBulkyDim))) ∧
      (isHeavy (.num m) = true → isBulky (.num w) (.num h) (.num l) = false →
        r.reason = reasonHeavy) ∧
      (isBulky (.num w) (.num h) (.num l) = false → isHeavy (.num m) = false →
        r.reason = reasonStandard) := by
  rw [sortWithDetails_pos w h l m h1 h2 h3 h4]
  refine ⟨_, rfl, ?_, ?_, ?_, ?_⟩
  · cases hb : isBulky (.num w) (.num h) (.num l) <;>
      cases hv : isHeavy (.num m) <;> simp
  · intro hb hv
    refine ⟨fun hvol hdim => ?_, fun hvol hdim => ?_, fun hvol => ?_⟩
    · simp [hb, hv, hvol, hdim]
    · simp [hb, hv, hvol, hdim]
    · simp [hb, hv, hvol]
  · intro hv hb
    simp [hb, hv]
  · intro hb hv
    simp [hb, hv]

/-- Witness for C7: (200, 100, 100, 15) is bulky by volume and by dimension
and not heavy, and its reason cites both. -/
theorem C7_witness :
    Except.map PackageResult.reason
      (sortWithDetails (.num 200) (.num 100) (.num 100) (.num 15)) = .ok reasonBulkyBoth := by
  obtain ⟨r, hr, -, hbulky, -, -⟩ :=
    C7_reason_priority 200 100 100 15 (by norm_num) (by norm_num) (by norm_num) (by norm_num)
  have hb : isBulky (.num 200) (.num 100) (.num 100) = true := by
    norm_num [isBulky, JSNum.mul, JSNum.ge, JSNum.le]
  have hv : isHeavy (.num (15 : ℚ)) = false := by
    norm_num [isHeavy, JSNum.ge, JSNum.le]
  have := (hbulky hb hv).1 (by norm_num) (by norm_num)
  rw [hr, Except.map, this]

/-- C8: on every valid input the detailed record returns the four inputs
unchanged, its `volume` equals width × height × length, and its `isBulky` and
`isHeavy` fields equal the two predicates on those inputs. -/
theorem C8_record_fields (w h l m : ℚ)
    (h1 : 0 < w) (h2 : 0 < h) (h3 : 0 < l) (h4 : 0 < m) :
    ∃ r, sortWithDetails (.num w) (.num h) (.num l) (.num m) = .ok r ∧
      r.width = .num w ∧ r.height = .num h ∧ r.length = .num l ∧ r.mass = .num m ∧
      r.volume = .num (w * h * l) ∧
      r.isBulky = isBulky (.num w) (.num h) (.num l) ∧
      r.isHeavy = isHeavy (.num m) := by
  rw [sortWithDetails_pos w h l m h1 h2 h3 h4]
  exact ⟨_, rfl, rfl, rfl, rfl, rfl, rfl, rfl, rfl⟩

/-- Witness for C8: on (10, 10, 10, 5) the record's volume is 1000. -/
theorem C8_witness :
    Except.map PackageResult.volume
      (sortWithDetails (.num 10) (.num 10) (.num 10) (.num 5)) = .ok (.num 1000) := by
  obtain ⟨r, hr, -, -, -, -, hvol, -, -⟩ :=
    C8_record_fields 10 10 10 5 (by norm_num) (by norm_num) (by norm_num) (by norm_num)
  rw [hr, Except.map, hvol]
  norm_num

/-- C10: on every valid input the `reason` of the detailed record is a
non-empty string: the empty-string default of the `SPECIAL` branch is never
returned, because `SPECIAL` implies exactly one of the two predicates holds. -/
theorem C10_reason_nonempty (w h l m : ℚ)
    (h1 : 0 < w) (h2 : 0 < h) (h3 : 0 < l) (h4 : 0 < m) :
    ∃ r, sortWithDetails (.num w) (.num h) (.num l) (.num m) = .ok r ∧
      r.reason ≠ "" := by
  rw [sortWithDetails_pos w h l m h1 h2 h3 h4]
  refine ⟨_, rfl, ?_⟩
  simp only []
  split_ifs <;>
    simp [reasonRejected, reasonBulkyBoth, reasonBulkyVolume, reasonBulkyDim,
      reasonHeavy, reasonStandard]

/-- Witness for C10: on (100, 100, 100, 15) the reason string is non-empty. -/
theorem C10_witness :
    Except.map PackageResult.reason
      (sortWithDetails (.num 100) (.num 100) (.num 100) (.num 15)) ≠ .ok "" := by
  obtain ⟨r, hr, hne⟩ :=
    C10_reason_nonempty 100 100 100 15 (by norm_num) (by norm_num) (by norm_num) (by norm_num)
  rw [hr, Except.map]
  simp [hne]

lemma JSNum.mul_comm (a b : JSNum) : a.mul b = b.mul a := by
  cases a <;> cases b <;> simp [JSNum.mul, Rat.mul_comm]

set_option maxHeartbeats 1000000 in
lemma JSNum.mul_assoc (a b c : JSNum) : (a.mul b).mul c = a.mul (b.mul c) := by
  cases a <;> cases b <;> cases c
  all_goals simp only [JSNum.mul]
  all_goals try split_ifs
  all_goals try simp only [JSNum.mul]
  all_goals try split_ifs
  all_goals first
    | rfl
    | (refine congrArg JSNum.num ?_; ring)
    | (exfalso; nlinarith)
    | (exfalso
       rename_i h1 h2 h3
       first
         | (have h0 := le_antisymm (not_lt.mp h2) (not_lt.mp h3); subst h0; simp_all)
         | (have h0 := le_antisymm (not_lt.mp h1) (not_lt.mp h2); subst h0; simp_all))
    | (exfalso
       rename_i h1 h2 h3 h4
       have h0 := le_antisymm (not_lt.mp h1) (not_lt.mp h2)
       subst h0
       simp_all)

lemma isBulky_swap12 (w h l : JSNum) : isBulky w h l = isBulky h w l := by
  simp only [isBulky]
  rw [JSNum.mul_comm w h]
  cases hw : w.ge (.num 150) <;> cases hh : h.ge (.num 150) <;> simp [hw, hh]

lemma isBulky_swap13 (w h l : JSNum) : isBulky w h l = isBulky l h w := by
  simp only [isBulky]
  rw [JSNum.mul_comm w h, JSNum.mul_assoc h w l, JSNum.mul_comm w l,
    ← JSNum.mul_assoc h l w, JSNum.mul_comm h l]
  cases hw : w.ge (.num 150) <;> cases hl : l.ge (.num 150) <;> simp [hw, hl]

lemma validateInputs_swap12 (w h l m : JSNum) :
    validateInputs w h l m = validateInputs h w l m := by
  simp only [validateInputs]
  cases hw : w.le (.num 0) <;> cases hh : h.le (.num 0) <;>
    cases hfw : w.isFinite <;> cases hfh : h.isFinite <;> simp [hw, hh, hfw, hfh]

lemma validateInputs_swap13 (w h l m : JSNum) :
    validateInputs w h l m = validateInputs l h w m := by
  simp only [validateInputs]
  cases hw : w.le (.num 0) <;> cases hl : l.le (.num 0) <;>
    cases hfw : w.isFinite <;> cases hfl : l.isFinite <;> simp [hw, hl, hfw, hfl]

lemma sort_swap12 (w h l m : JSNum) : sort w h l m = sort h w l m := by
  simp only [sort]
  rw [validateInputs_swap12, isBulky_swap12]

lemma sort_swap13 (w h l m : JSNum) : sort w h l m = sort l h w m := by
  simp only [sort]
  rw [validateInputs_swap13, isBulky_swap13]

/-- C9: `sort` and `isBulky` are invariant under permuting the three
dimension arguments (the two listed transpositions generate all of them);
only the mass argument plays a distinguished role. -/
theorem C9_dimension_permutation (w h l m : JSNum) :
    sort w h l m = sort h w l m ∧
    sort w h l m = sort l h w m ∧
    isBulky w h l = isBulky h w l ∧
    isBulky w h l = isBulky l h w :=
  ⟨sort_swap12 w h l m, sort_swap13 w h l m, isBulky_swap12 w h l, isBulky_swap13 w h l⟩

end PackageSorter
